import Mathlib

/-!
Verification of the trading-bot permission core: the gate verdict data model,
the StateCalculator cascade, the ConflictDetector, the uncertainty assessor,
and the numeric sub-assessments of the Risk / Flow / Context gates.

Each definition is a shallow embedding of the corresponding TypeScript
function.  Machine floats are modelled as rationals (all the verified
properties depend only on sign / order comparisons), `Date` values as
natural-number millisecond timestamps, and the non-deterministic pieces of
`PermissionStateEngine.assess` (the `uuid` id, `new Date()`) are passed in
as explicit parameters.
-/

/-- `GateStatus` from `src/types/gates.types.ts`. -/
inductive GateStatus
  | PASS
  | WEAK_PASS
  | FAIL
deriving DecidableEq, Repr

/-- `ConfidenceLevel` from `src/types/gates.types.ts`. -/
inductive ConfidenceLevel
  | HIGH
  | MEDIUM
  | LOW
deriving DecidableEq, Repr

/-- `DataFreshness` from `src/types/gates.types.ts`. -/
inductive DataFreshness
  | CURRENT
  | STALE
  | UNKNOWN
deriving DecidableEq, Repr

/-- `PermissionState` from `src/types/permission.types.ts`. -/
inductive PermissionState
  | TRADE_ALLOWED
  | TRADE_ALLOWED_REDUCED_RISK
  | SCALP_ONLY
  | WAIT
  | NO_TRADE
deriving DecidableEq, Repr

/-- `UncertaintyLevel` from `src/types/permission.types.ts`. -/
inductive UncertaintyLevel
  | LOW
  | MODERATE
  | HIGH
  | CRITICAL
deriving DecidableEq, Repr

/-- Conflict severity, the HIGH / MEDIUM / LOW union of
`LayerConflict.severity` in `src/types/permission.types.ts`. -/
inductive Severity
  | HIGH
  | MEDIUM
  | LOW
deriving DecidableEq, Repr

/-- `volStance` union of `RegimeGateEvaluation`. -/
inductive VolStance
  | LONG_VOL
  | SHORT_VOL
  | UNCLEAR
deriving DecidableEq, Repr

/-- `flowDirection` union of `FlowGateEvaluation`. -/
inductive FlowDirection
  | ACCUMULATION
  | DISTRIBUTION
  | NEUTRAL
  | UNCLEAR
deriving DecidableEq, Repr

/-- `flowQuality` union of `FlowGateEvaluation`. -/
inductive FlowQuality
  | WHALE_DRIVEN
  | MIXED
  | RETAIL_DRIVEN
deriving DecidableEq, Repr

/-- CVD direction union inside `FlowGateEvaluation.cvdWhale`. -/
inductive CvdDirection
  | POSITIVE
  | NEGATIVE
  | FLAT
deriving DecidableEq, Repr

/-- CVD alignment union inside `FlowGateEvaluation.cvdWhale`. -/
inductive CvdAlignment
  | CONSISTENT
  | DIVERGING
deriving DecidableEq, Repr

/-- `fundingBias` union of `RiskGateEvaluation`. -/
inductive FundingBias
  | LONG_CROWDED
  | SHORT_CROWDED
  | BALANCED
deriving DecidableEq, Repr

/-- `crowdingLevel` union of `RiskGateEvaluation`. -/
inductive CrowdingLevel
  | EXTREME
  | ELEVATED
  | NORMAL
  | LOW
deriving DecidableEq, Repr

/-- `stressRangeStatus` union of `RiskGateEvaluation`.  `INSIDE` means the
price is inside the STRESS range (i.e. outside the comfort range). -/
inductive StressRangeStatus
  | OUTSIDE
  | AT_BOUNDARY
  | INSIDE
deriving DecidableEq, Repr

/-- `currentZone` union of `ContextGateEvaluation`. -/
inductive CurrentZone
  | ACCUMULATION_ZONE
  | NEUTRAL_ZONE
  | DISTRIBUTION_ZONE
deriving DecidableEq, Repr

/-- `bandPosition` union of `ContextGateEvaluation`. -/
inductive BandPosition
  | LOWER_BAND
  | MID_BAND
  | UPPER_BAND
deriving DecidableEq, Repr

/-- `zoneFlowAlignment` union of `ContextGateEvaluation`. -/
inductive ZoneFlowAlignment
  | ALIGNED
  | NEUTRAL
  | MISALIGNED
deriving DecidableEq, Repr

/-- One endpoint (`layerA`/`layerB`) of a `LayerConflict`. -/
structure LayerEndpoint where
  name : String
  signal : String
  confidence : ConfidenceLevel
deriving DecidableEq, Repr

/-- `LayerConflict` from `src/types/permission.types.ts`.  `detectedAt`
models the `Date` field as a millisecond timestamp. -/
structure LayerConflict where
  conflictType : String
  layerA : LayerEndpoint
  layerB : LayerEndpoint
  severity : Severity
  description : String
  detectedAt : Nat
deriving DecidableEq, Repr

/-- The fields of `RegimeGateEvaluation` read by the permission engine and
conflict detector.  (The TypeScript interface also carries evidence lists,
human notes and timestamps, which no modelled function reads.) -/
structure RegimeVerdict where
  status : GateStatus
  confidence : ConfidenceLevel
  dataFreshness : DataFreshness
  volStance : VolStance
deriving DecidableEq, Repr

/-- The `cvdWhale.h24` / `cvdWhale.d7` sub-record of `FlowGateEvaluation`. -/
structure CvdTimeframe where
  direction : CvdDirection
  magnitude : String
deriving DecidableEq, Repr

/-- The `cvdWhale` sub-record of `FlowGateEvaluation`. -/
structure CvdWhale where
  h24 : CvdTimeframe
  d7 : CvdTimeframe
  alignment : CvdAlignment
deriving DecidableEq, Repr

/-- The fields of `FlowGateEvaluation` read by the permission engine and
conflict detector. -/
structure FlowVerdict where
  status : GateStatus
  confidence : ConfidenceLevel
  dataFreshness : DataFreshness
  flowDirection : FlowDirection
  flowQuality : FlowQuality
  cvdWhale : CvdWhale
deriving DecidableEq, Repr

/-- The fields of `RiskGateEvaluation` read by the permission engine and
conflict detector. -/
structure RiskVerdict where
  status : GateStatus
  confidence : ConfidenceLevel
  dataFreshness : DataFreshness
  fundingBias : FundingBias
  crowdingLevel : CrowdingLevel
  stressRangeStatus : StressRangeStatus
deriving DecidableEq, Repr

/-- The fields of `ContextGateEvaluation` read by the permission engine and
conflict detector. -/
structure ContextVerdict where
  status : GateStatus
  confidence : ConfidenceLevel
  dataFreshness : DataFreshness
  currentZone : CurrentZone
  bandPosition : BandPosition
  zoneFlowAlignment : ZoneFlowAlignment
deriving DecidableEq, Repr

/-- `GateEvaluationResult` from `src/types/gates.types.ts` (the
`evaluatedAt` timestamp is read by no modelled function and is omitted). -/
structure GateEvaluationResult where
  regime : RegimeVerdict
  flow : FlowVerdict
  risk : RiskVerdict
  context : ContextVerdict
deriving DecidableEq, Repr

namespace StateCalculator

/-- `StateCalculator.calculate` from
`src/core/permission-engine/StateCalculator.ts` (lines 26-113): the strict
five-step cascade deriving the permission state from the four gate verdicts
and the detected conflicts. -/
def calculate (gateResult : GateEvaluationResult) (conflicts : List LayerConflict) :
    PermissionState :=
  -- STEP 1: hard failures
  if gateResult.regime.status = GateStatus.FAIL then PermissionState.NO_TRADE
  else if gateResult.risk.status = GateStatus.FAIL then PermissionState.NO_TRADE
  else if gateResult.flow.status = GateStatus.FAIL ∧
      gateResult.context.status = GateStatus.FAIL then PermissionState.NO_TRADE
  else
    -- STEP 2: transitional state
    let gates := [gateResult.regime.status, gateResult.flow.status,
      gateResult.risk.status, gateResult.context.status]
    let weakPassCount := (gates.filter fun s => decide (s = GateStatus.WEAK_PASS)).length
    if 3 ≤ weakPassCount then PermissionState.WAIT
    else if conflicts.any fun c => decide (c.severity = Severity.HIGH) then PermissionState.WAIT
    -- STEP 3: flow quality
    else if gateResult.flow.status = GateStatus.FAIL then PermissionState.SCALP_ONLY
    else if gateResult.flow.status = GateStatus.WEAK_PASS then PermissionState.SCALP_ONLY
    -- STEP 4: risk factors
    else if 0 < weakPassCount then PermissionState.TRADE_ALLOWED_REDUCED_RISK
    -- STEP 5: full permission
    else PermissionState.TRADE_ALLOWED

/-- Reference definition of the five-step cascade, written from the wording of
the spec in §4.6 (one step per spec bullet, evaluated in order), to be compared
with `StateCalculator.calculate`. -/
def calculateSpecCascade (gateResult : GateEvaluationResult)
    (conflicts : List LayerConflict) : PermissionState :=
  let weakPassCount := ([gateResult.regime.status, gateResult.flow.status,
    gateResult.risk.status, gateResult.context.status].filter
      fun s => decide (s = GateStatus.WEAK_PASS)).length
  if gateResult.regime.status = GateStatus.FAIL ∨
      gateResult.risk.status = GateStatus.FAIL ∨
      (gateResult.flow.status = GateStatus.FAIL ∧
        gateResult.context.status = GateStatus.FAIL) then
    PermissionState.NO_TRADE
  else if 3 ≤ weakPassCount ∨
      conflicts.any (fun c => decide (c.severity = Severity.HIGH)) then
    PermissionState.WAIT
  else if gateResult.flow.status = GateStatus.FAIL ∨
      gateResult.flow.status = GateStatus.WEAK_PASS then
    PermissionState.SCALP_ONLY
  else if 0 < weakPassCount then
    PermissionState.TRADE_ALLOWED_REDUCED_RISK
  else
    PermissionState.TRADE_ALLOWED

end StateCalculator

/-- String rendering of a `VolStance` value, as TypeScript template
interpolation of the union value. -/
def VolStance.toStr : VolStance → String
  | VolStance.LONG_VOL => "LONG_VOL"
  | VolStance.SHORT_VOL => "SHORT_VOL"
  | VolStance.UNCLEAR => "UNCLEAR"

/-- String rendering of a `FlowDirection` value. -/
def FlowDirection.toStr : FlowDirection → String
  | FlowDirection.ACCUMULATION => "ACCUMULATION"
  | FlowDirection.DISTRIBUTION => "DISTRIBUTION"
  | FlowDirection.NEUTRAL => "NEUTRAL"
  | FlowDirection.UNCLEAR => "UNCLEAR"

/-- String rendering of a `CvdDirection` value. -/
def CvdDirection.toStr : CvdDirection → String
  | CvdDirection.POSITIVE => "POSITIVE"
  | CvdDirection.NEGATIVE => "NEGATIVE"
  | CvdDirection.FLAT => "FLAT"

namespace ConflictDetector

/-- `ConflictDetector.checkRegimeFlowConflict` (StateCalculator.ts companion
file, lines 232-278): Regime vs Flow divergence. -/
def checkRegimeFlowConflict (regime : RegimeVerdict) (flow : FlowVerdict)
    (now : Nat) : Option LayerConflict :=
  if regime.volStance = VolStance.LONG_VOL ∧
      flow.flowDirection = FlowDirection.DISTRIBUTION then
    some
      { conflictType := "REGIME_FLOW_DIVERGENCE"
        layerA :=
          { name := "Regime"
            signal := "Vol stance: " ++ regime.volStance.toStr
            confidence := regime.confidence }
        layerB :=
          { name := "Flow"
            signal := "Direction: " ++ flow.flowDirection.toStr
            confidence := flow.confidence }
        severity := Severity.HIGH
        description := "Option stance (Long Vol) suggests preparing for movement, but whale flow shows distribution"
        detectedAt := now }
  else if regime.volStance = VolStance.SHORT_VOL ∧
      flow.flowDirection = FlowDirection.ACCUMULATION then
    some
      { conflictType := "REGIME_FLOW_DIVERGENCE"
        layerA :=
          { name := "Regime"
            signal := "Vol stance: " ++ regime.volStance.toStr
            confidence := regime.confidence }
        layerB :=
          { name := "Flow"
            signal := "Direction: " ++ flow.flowDirection.toStr
            confidence := flow.confidence }
        severity := Severity.MEDIUM
        description := "Option stance (Short Vol) suggests range expectations, but whale flow shows accumulation"
        detectedAt := now }
  else none

/-- `ConflictDetector.checkFlowRiskConflict` (lines 285-330): flow direction
vs funding crowding. -/
def checkFlowRiskConflict (flow : FlowVerdict) (risk : RiskVerdict)
    (now : Nat) : Option LayerConflict :=
  if flow.flowDirection = FlowDirection.ACCUMULATION ∧
      risk.fundingBias = FundingBias.LONG_CROWDED then
    some
      { conflictType := "FLOW_RISK_DIVERGENCE"
        layerA :=
          { name := "Flow", signal := "Accumulation detected"
            confidence := flow.confidence }
        layerB :=
          { name := "Risk", signal := "Longs are crowded"
            confidence := risk.confidence }
        severity := Severity.MEDIUM
        description := "Whale accumulation occurring but positioning is already long-crowded"
        detectedAt := now }
  else if flow.flowDirection = FlowDirection.DISTRIBUTION ∧
      risk.fundingBias = FundingBias.SHORT_CROWDED then
    some
      { conflictType := "FLOW_RISK_DIVERGENCE"
        layerA :=
          { name := "Flow", signal := "Distribution detected"
            confidence := flow.confidence }
        layerB :=
          { name := "Risk", signal := "Shorts are crowded"
            confidence := risk.confidence }
        severity := Severity.MEDIUM
        description := "Whale distribution occurring but positioning is already short-crowded"
        detectedAt := now }
  else none

/-- `ConflictDetector.checkRiskContextConflict` (lines 337-388): low
crowding at a band extreme. -/
def checkRiskContextConflict (risk : RiskVerdict) (context : ContextVerdict)
    (now : Nat) : Option LayerConflict :=
  if risk.crowdingLevel = CrowdingLevel.LOW ∧
      context.bandPosition = BandPosition.UPPER_BAND then
    some
      { conflictType := "RISK_CONTEXT_DIVERGENCE"
        layerA :=
          { name := "Risk", signal := "Low crowding"
            confidence := risk.confidence }
        layerB :=
          { name := "Context", signal := "Upper band position"
            confidence := context.confidence }
        severity := Severity.LOW
        description := "Low crowding but price at upper band - potential for squeeze or reversal"
        detectedAt := now }
  else if risk.crowdingLevel = CrowdingLevel.LOW ∧
      context.bandPosition = BandPosition.LOWER_BAND then
    some
      { conflictType := "RISK_CONTEXT_DIVERGENCE"
        layerA :=
          { name := "Risk", signal := "Low crowding"
            confidence := risk.confidence }
        layerB :=
          { name := "Context", signal := "Lower band position"
            confidence := context.confidence }
        severity := Severity.LOW
        description := "Low crowding but price at lower band - potential for bounce or continuation"
        detectedAt := now }
  else none

/-- `ConflictDetector.checkFlowTimeframeConflict` (lines 395-427): opposite
CVD directions between the 24H and 7D timeframes. -/
def checkFlowTimeframeConflict (flow : FlowVerdict) (now : Nat) :
    Option LayerConflict :=
  if flow.cvdWhale.alignment = CvdAlignment.DIVERGING then
    let h24Dir := flow.cvdWhale.h24.direction
    let d7Dir := flow.cvdWhale.d7.direction
    if (h24Dir = CvdDirection.POSITIVE ∧ d7Dir = CvdDirection.NEGATIVE) ∨
        (h24Dir = CvdDirection.NEGATIVE ∧ d7Dir = CvdDirection.POSITIVE) then
      some
        { conflictType := "FLOW_TIMEFRAME_DIVERGENCE"
          layerA :=
            { name := "Flow (24H)"
              signal := "CVD direction: " ++ h24Dir.toStr
              confidence := flow.confidence }
          layerB :=
            { name := "Flow (7D)"
              signal := "CVD direction: " ++ d7Dir.toStr
              confidence := flow.confidence }
          severity := Severity.MEDIUM
          description := "24H flow (" ++ h24Dir.toStr ++ ") contradicts 7D flow (" ++ d7Dir.toStr ++ ") - possible trend change"
          detectedAt := now }
    else none
  else none

/-- `ConflictDetector.checkZoneFlowConflict` (lines 434-485): zone position
contradicts flow direction. -/
def checkZoneFlowConflict (context : ContextVerdict) (flow : FlowVerdict)
    (now : Nat) : Option LayerConflict :=
  if context.currentZone = CurrentZone.ACCUMULATION_ZONE ∧
      flow.flowDirection = FlowDirection.DISTRIBUTION then
    some
      { conflictType := "ZONE_FLOW_DIVERGENCE"
        layerA :=
          { name := "Context", signal := "Accumulation zone"
            confidence := context.confidence }
        layerB :=
          { name := "Flow", signal := "Distribution detected"
            confidence := flow.confidence }
        severity := Severity.HIGH
        description := "Price in accumulation zone but flow shows distribution - significant divergence"
        detectedAt := now }
  else if context.currentZone = CurrentZone.DISTRIBUTION_ZONE ∧
      flow.flowDirection = FlowDirection.ACCUMULATION then
    some
      { conflictType := "ZONE_FLOW_DIVERGENCE"
        layerA :=
          { name := "Context", signal := "Distribution zone"
            confidence := context.confidence }
        layerB :=
          { name := "Flow", signal := "Accumulation detected"
            confidence := flow.confidence }
        severity := Severity.HIGH
        description := "Price in distribution zone but flow shows accumulation - significant divergence"
        detectedAt := now }
  else none

/-- `ConflictDetector.detect` (lines 200-225): runs the five checks in
source order and collects the fired conflicts.  The source pushes each
non-null result onto a fresh array, which is the concatenation below.
`now` models the `new Date()` timestamps. -/
def detect (gateResult : GateEvaluationResult) (now : Nat) : List LayerConflict :=
  (checkRegimeFlowConflict gateResult.regime gateResult.flow now).toList ++
  (checkFlowRiskConflict gateResult.flow gateResult.risk now).toList ++
  (checkRiskContextConflict gateResult.risk gateResult.context now).toList ++
  (checkFlowTimeframeConflict gateResult.flow now).toList ++
  (checkZoneFlowConflict gateResult.context gateResult.flow now).toList

/-- State-passing embedding of `ConflictDetector.detect`: the verdict record
is threaded through the statements of the body as the mutable heap state the
TypeScript code could write to.  The body is translated statement by
statement; it reads verdict fields but contains no assignment into
`gateResult`, so the state after each statement is the state before it. -/
def detectS (gateResult : GateEvaluationResult) (now : Nat) :
    GateEvaluationResult × List LayerConflict :=
  let st0 := gateResult
  let conflicts0 : List LayerConflict := []
  let regimeFlowConflict := checkRegimeFlowConflict st0.regime st0.flow now
  let st1 := st0
  let conflicts1 := conflicts0 ++ regimeFlowConflict.toList
  let flowRiskConflict := checkFlowRiskConflict st1.flow st1.risk now
  let st2 := st1
  let conflicts2 := conflicts1 ++ flowRiskConflict.toList
  let riskContextConflict := checkRiskContextConflict st2.risk st2.context now
  let st3 := st2
  let conflicts3 := conflicts2 ++ riskContextConflict.toList
  let timeframeConflict := checkFlowTimeframeConflict st3.flow now
  let st4 := st3
  let conflicts4 := conflicts3 ++ timeframeConflict.toList
  let zoneFlowConflict := checkZoneFlowConflict st4.context st4.flow now
  let st5 := st4
  let conflicts5 := conflicts4 ++ zoneFlowConflict.toList
  (st5, conflicts5)

end ConflictDetector

/-- `TIMING.PERMISSION_VALIDITY_MS` from `src/config/constants.ts` line 70:
how long a permission assessment is considered valid (5 minutes). -/
def TIMING.PERMISSION_VALIDITY_MS : Nat := 300000

/-- `PermissionAssessment` from `src/types/permission.types.ts`, modelled
with `Date` fields as millisecond timestamps.  The `id` field (a random
uuid) and the `explanation` field (rendered text, produced by the
explanation generator from already-computed fields) are omitted: neither is
read by any verified property. -/
structure PermissionAssessment where
  asset : String
  permissionState : PermissionState
  gateEvaluations : GateEvaluationResult
  conflicts : List LayerConflict
  uncertaintyLevel : UncertaintyLevel
  assessedAt : Nat
  validUntil : Nat
deriving DecidableEq, Repr

namespace PermissionStateEngine

/-- The `dataFreshness` fields of the `gates` array built inside
`PermissionStateEngine.assessUncertainty` (PermissionStateEngine.ts lines
89-94). -/
def freshnessList (gateResult : GateEvaluationResult) : List DataFreshness :=
  [gateResult.regime.dataFreshness, gateResult.flow.dataFreshness,
    gateResult.risk.dataFreshness, gateResult.context.dataFreshness]

/-- The `confidence` fields of the same `gates` array. -/
def confidenceList (gateResult : GateEvaluationResult) : List ConfidenceLevel :=
  [gateResult.regime.confidence, gateResult.flow.confidence,
    gateResult.risk.confidence, gateResult.context.confidence]

/-- `PermissionStateEngine.assessUncertainty`
(PermissionStateEngine.ts lines 85-142): the uncertainty cascade, with each
check in the order of the source. -/
def assessUncertainty (gateResult : GateEvaluationResult)
    (conflicts : List LayerConflict) : UncertaintyLevel :=
  if (freshnessList gateResult).any (fun f => decide (f = DataFreshness.STALE)) then
    UncertaintyLevel.CRITICAL
  else if 2 ≤ ((freshnessList gateResult).filter
      fun f => decide (f = DataFreshness.UNKNOWN)).length then
    UncertaintyLevel.CRITICAL
  else
    let lowConfidenceCount := ((confidenceList gateResult).filter
      fun c => decide (c = ConfidenceLevel.LOW)).length
    if 2 ≤ lowConfidenceCount then UncertaintyLevel.HIGH
    else if lowConfidenceCount = 1 then UncertaintyLevel.MODERATE
    else if conflicts.any (fun c => decide (c.severity = Severity.HIGH)) then
      UncertaintyLevel.HIGH
    else if conflicts.any (fun c => decide (c.severity = Severity.MEDIUM)) then
      UncertaintyLevel.MODERATE
    else if 0 < conflicts.length then UncertaintyLevel.MODERATE
    else if 2 ≤ ((confidenceList gateResult).filter
        fun c => decide (c = ConfidenceLevel.MEDIUM)).length then
      UncertaintyLevel.MODERATE
    else UncertaintyLevel.LOW

/-- Reference definition of the uncertainty cascade as the code actually
orders it (the amended form of the cascade in spec §4.7): after the CRITICAL
checks, HIGH requires either two LOW-confidence gates, or a HIGH-severity
conflict with no LOW-confidence gate at all; a single LOW-confidence gate
forces MODERATE before conflicts are ever consulted. -/
def assessUncertaintyAmendedRef (gateResult : GateEvaluationResult)
    (conflicts : List LayerConflict) : UncertaintyLevel :=
  let lowCount := ((confidenceList gateResult).filter
    fun c => decide (c = ConfidenceLevel.LOW)).length
  let medCount := ((confidenceList gateResult).filter
    fun c => decide (c = ConfidenceLevel.MEDIUM)).length
  if (freshnessList gateResult).any (fun f => decide (f = DataFreshness.STALE)) ∨
      2 ≤ ((freshnessList gateResult).filter
        fun f => decide (f = DataFreshness.UNKNOWN)).length then
    UncertaintyLevel.CRITICAL
  else if 2 ≤ lowCount ∨
      (lowCount = 0 ∧ conflicts.any fun c => decide (c.severity = Severity.HIGH)) then
    UncertaintyLevel.HIGH
  else if lowCount = 1 ∨ conflicts ≠ [] ∨ 2 ≤ medCount then
    UncertaintyLevel.MODERATE
  else UncertaintyLevel.LOW

/-- `PermissionStateEngine.assess` (PermissionStateEngine.ts lines 38-74).
The wall-clock reading `new Date()` at entry is the explicit `assessedAt`
parameter; the uuid `id` and the generated `explanation` are omitted (see
`PermissionAssessment`). -/
def assess (asset : String) (gateResult : GateEvaluationResult)
    (assessedAt : Nat) : PermissionAssessment :=
  let conflicts := ConflictDetector.detect gateResult assessedAt
  let permissionState := StateCalculator.calculate gateResult conflicts
  let uncertaintyLevel := assessUncertainty gateResult conflicts
  { asset := asset.toUpper
    permissionState := permissionState
    gateEvaluations := gateResult
    conflicts := conflicts
    uncertaintyLevel := uncertaintyLevel
    assessedAt := assessedAt
    validUntil := assessedAt + TIMING.PERMISSION_VALIDITY_MS }

end PermissionStateEngine

/-- The `{ lower, upper }` comfort-range record from the option data. -/
structure ComfortRange where
  lower : ℚ
  upper : ℚ
deriving DecidableEq, Repr

namespace RiskGate

/-- `RiskGate.assessStressRange` (RiskGate.ts lines 161-189).  Returns
`INSIDE` when the price is inside the STRESS range, i.e. outside the
comfort range; absent comfort-range data yields `OUTSIDE`. -/
def assessStressRange (currentPrice : ℚ) (comfortRange : Option ComfortRange) :
    StressRangeStatus :=
  match comfortRange with
  | none => StressRangeStatus.OUTSIDE
  | some cr =>
    let rangeWidth := cr.upper - cr.lower
    let boundaryThreshold := rangeWidth * (1 / 10)
    if currentPrice < cr.lower ∨ currentPrice > cr.upper then
      StressRangeStatus.INSIDE
    else if currentPrice < cr.lower + boundaryThreshold ∨
        currentPrice > cr.upper - boundaryThreshold then
      StressRangeStatus.AT_BOUNDARY
    else StressRangeStatus.OUTSIDE

/-- `RiskGate.determineStatus` (RiskGate.ts lines 236-256): FAIL on extreme
crowding or in-stress price, WEAK_PASS on elevated crowding or boundary. -/
def determineStatus (crowdingLevel : CrowdingLevel)
    (stressRangeStatus : StressRangeStatus) : GateStatus :=
  if crowdingLevel = CrowdingLevel.EXTREME then GateStatus.FAIL
  else if stressRangeStatus = StressRangeStatus.INSIDE then GateStatus.FAIL
  else if crowdingLevel = CrowdingLevel.ELEVATED ∨
      stressRangeStatus = StressRangeStatus.AT_BOUNDARY then GateStatus.WEAK_PASS
  else GateStatus.PASS

end RiskGate

/-- The whale-flow fields read by `FlowGate.determineFlowDirection`: the 24h
and 7d cumulative volume deltas.  (The TypeScript whale record carries
further fields — volume ratio, VWAP, bands, bubbles — read by other
FlowGate helpers only.) -/
structure WhaleFlowData where
  cvdWhale24h : ℚ
  cvdWhale7d : ℚ
deriving DecidableEq, Repr

namespace FlowGate

/-- `FlowGate.determineFlowDirection` (FlowGate.ts lines 82-114). -/
def determineFlowDirection (whaleData : Option WhaleFlowData) : FlowDirection :=
  match whaleData with
  | none => FlowDirection.UNCLEAR
  | some w =>
    if w.cvdWhale24h > 0 ∧ w.cvdWhale7d > 0 then FlowDirection.ACCUMULATION
    else if w.cvdWhale24h < 0 ∧ w.cvdWhale7d < 0 then FlowDirection.DISTRIBUTION
    else if |w.cvdWhale24h| < |w.cvdWhale7d| * (1 / 10) then
      (if w.cvdWhale7d > 0 then FlowDirection.ACCUMULATION
        else FlowDirection.DISTRIBUTION)
    else if (w.cvdWhale24h > 0 ∧ w.cvdWhale7d < 0) ∨
        (w.cvdWhale24h < 0 ∧ w.cvdWhale7d > 0) then FlowDirection.UNCLEAR
    else FlowDirection.NEUTRAL

/-- Reference definition following the words of the original claim for the
flow direction: a symmetric tie-break in which, for opposite-signed deltas,
a smaller magnitude under 10% of the larger means the direction follows the
sign of the larger magnitude.  To be compared with `determineFlowDirection`. -/
def flowDirectionClaimRef (h24 d7 : ℚ) : FlowDirection :=
  if h24 > 0 ∧ d7 > 0 then FlowDirection.ACCUMULATION
  else if h24 < 0 ∧ d7 < 0 then FlowDirection.DISTRIBUTION
  else if ((h24 > 0 ∧ d7 < 0) ∨ (h24 < 0 ∧ d7 > 0)) ∧
      min |h24| |d7| < max |h24| |d7| * (1 / 10) then
    (if (if |d7| ≤ |h24| then h24 else d7) > 0 then FlowDirection.ACCUMULATION
      else FlowDirection.DISTRIBUTION)
  else if (h24 > 0 ∧ d7 < 0) ∨ (h24 < 0 ∧ d7 > 0) then FlowDirection.UNCLEAR
  else FlowDirection.NEUTRAL

/-- Reference definition following the amended claim: the 10% tie-break is
asymmetric — it fires only when the 24h magnitude is under 10% of the 7d
magnitude and then always follows the 7d sign; otherwise strictly
opposite-signed deltas are UNCLEAR and the remaining mixed cases (at least
one delta zero) are NEUTRAL. -/
def flowDirectionAmendedRef (h24 d7 : ℚ) : FlowDirection :=
  if h24 > 0 ∧ d7 > 0 then FlowDirection.ACCUMULATION
  else if h24 < 0 ∧ d7 < 0 then FlowDirection.DISTRIBUTION
  else if 10 * |h24| < |d7| then
    (if d7 > 0 then FlowDirection.ACCUMULATION else FlowDirection.DISTRIBUTION)
  else if h24 ≠ 0 ∧ d7 ≠ 0 then FlowDirection.UNCLEAR
  else FlowDirection.NEUTRAL

end FlowGate

/-- The reference-level record built by
`ContextGate.calculateReferenceLevel`: whale VWAP with lower/upper bands. -/
structure ReferenceLevel where
  whaleVwap : ℚ
  lowerBand : ℚ
  upperBand : ℚ
deriving DecidableEq, Repr

namespace ContextGate

/-- `ContextGate.determineCurrentZone` (ContextGate.ts lines 121-143): a
zone label is only assigned when the flow direction agrees — lower half of
the band requires ACCUMULATION flow, upper half requires DISTRIBUTION
flow — otherwise the zone is NEUTRAL_ZONE. -/
def determineCurrentZone (price : ℚ) (referenceLevel : ReferenceLevel)
    (flowGate : FlowVerdict) : CurrentZone :=
  if price < referenceLevel.whaleVwap -
        (referenceLevel.whaleVwap - referenceLevel.lowerBand) * (1 / 2) ∧
      flowGate.flowDirection = FlowDirection.ACCUMULATION then
    CurrentZone.ACCUMULATION_ZONE
  else if price > referenceLevel.whaleVwap +
        (referenceLevel.upperBand - referenceLevel.whaleVwap) * (1 / 2) ∧
      flowGate.flowDirection = FlowDirection.DISTRIBUTION then
    CurrentZone.DISTRIBUTION_ZONE
  else CurrentZone.NEUTRAL_ZONE

/-- `ContextGate.assessZoneFlowAlignment` (ContextGate.ts lines 179-201). -/
def assessZoneFlowAlignment (zone : CurrentZone)
    (flowDirection : FlowDirection) : ZoneFlowAlignment :=
  if zone = CurrentZone.ACCUMULATION_ZONE ∧
      flowDirection = FlowDirection.ACCUMULATION then ZoneFlowAlignment.ALIGNED
  else if zone = CurrentZone.DISTRIBUTION_ZONE ∧
      flowDirection = FlowDirection.DISTRIBUTION then ZoneFlowAlignment.ALIGNED
  else if zone = CurrentZone.ACCUMULATION_ZONE ∧
      flowDirection = FlowDirection.DISTRIBUTION then ZoneFlowAlignment.MISALIGNED
  else if zone = CurrentZone.DISTRIBUTION_ZONE ∧
      flowDirection = FlowDirection.ACCUMULATION then ZoneFlowAlignment.MISALIGNED
  else ZoneFlowAlignment.NEUTRAL

end ContextGate

/-- A Regime verdict with unremarkable values (passes, fires no conflict). -/
def neutralRegime : RegimeVerdict :=
  { status := GateStatus.PASS, confidence := ConfidenceLevel.HIGH
    dataFreshness := DataFreshness.CURRENT, volStance := VolStance.UNCLEAR }

/-- A Flow verdict with unremarkable values (passes, fires no conflict). -/
def neutralFlow : FlowVerdict :=
  { status := GateStatus.PASS, confidence := ConfidenceLevel.HIGH
    dataFreshness := DataFreshness.CURRENT
    flowDirection := FlowDirection.NEUTRAL
    flowQuality := FlowQuality.WHALE_DRIVEN
    cvdWhale :=
      { h24 := { direction := CvdDirection.POSITIVE, magnitude := "STRONG" }
        d7 := { direction := CvdDirection.POSITIVE, magnitude := "STRONG" }
        alignment := CvdAlignment.CONSISTENT } }

/-- A Risk verdict with unremarkable values (passes, fires no conflict). -/
def neutralRisk : RiskVerdict :=
  { status := GateStatus.PASS, confidence := ConfidenceLevel.HIGH
    dataFreshness := DataFreshness.CURRENT
    fundingBias := FundingBias.BALANCED
    crowdingLevel := CrowdingLevel.NORMAL
    stressRangeStatus := StressRangeStatus.OUTSIDE }

/-- A Context verdict with unremarkable values (passes, fires no conflict). -/
def neutralContext : ContextVerdict :=
  { status := GateStatus.PASS, confidence := ConfidenceLevel.HIGH
    dataFreshness := DataFreshness.CURRENT
    currentZone := CurrentZone.NEUTRAL_ZONE
    bandPosition := BandPosition.MID_BAND
    zoneFlowAlignment := ZoneFlowAlignment.NEUTRAL }

/-- A gate evaluation in which the Risk gate has failed and the other three
gates pass. -/
def exGatesRiskFail : GateEvaluationResult :=
  { regime := neutralRegime, flow := neutralFlow
    risk := { neutralRisk with status := GateStatus.FAIL }
    context := neutralContext }

/-- A gate evaluation in which exactly the Regime gate has LOW confidence
and every gate reports CURRENT data freshness. -/
def exGatesOneLow : GateEvaluationResult :=
  { regime := { neutralRegime with confidence := ConfidenceLevel.LOW }
    flow := neutralFlow, risk := neutralRisk, context := neutralContext }

/-- A HIGH-severity layer conflict (a zone/flow divergence record as the
detector would emit it). -/
def exHighConflict : LayerConflict :=
  { conflictType := "ZONE_FLOW_DIVERGENCE"
    layerA :=
      { name := "Context", signal := "Accumulation zone"
        confidence := ConfidenceLevel.HIGH }
    layerB :=
      { name := "Flow", signal := "Distribution detected"
        confidence := ConfidenceLevel.HIGH }
    severity := Severity.HIGH
    description := "Price in accumulation zone but flow shows distribution - significant divergence"
    detectedAt := 0 }

/-- A Flow verdict showing ACCUMULATION direction. -/
def exFlowAccum : FlowVerdict :=
  { neutralFlow with flowDirection := FlowDirection.ACCUMULATION }

/-- A concrete whale-VWAP reference level. -/
def exReferenceLevel : ReferenceLevel :=
  { whaleVwap := 100, lowerBand := 94, upperBand := 106 }

/-- The Context verdict the pipeline computes at price 90 under
`exReferenceLevel` when fed `exFlowAccum`: its zone and alignment fields are
produced by the ContextGate helpers from that same flow verdict. -/
def exContextAccum : ContextVerdict :=
  { neutralContext with
    currentZone := ContextGate.determineCurrentZone 90 exReferenceLevel exFlowAccum
    zoneFlowAlignment := ContextGate.assessZoneFlowAlignment
      (ContextGate.determineCurrentZone 90 exReferenceLevel exFlowAccum)
      exFlowAccum.flowDirection }

/-- Claim C1: whenever the status of the Risk gate is FAIL,
`StateCalculator.calculate` returns NO_TRADE, for every combination of the
statuses of the other three gates and every conflict list. -/
theorem risk_fail_forces_no_trade (gateResult : GateEvaluationResult)
    (conflicts : List LayerConflict)
    (h : gateResult.risk.status = GateStatus.FAIL) :
    StateCalculator.calculate gateResult conflicts = PermissionState.NO_TRADE := by
  simp [StateCalculator.calculate, h]

/-- Witness for C1: the Tier-1 invariant applied at a concrete gate
evaluation with Risk = FAIL and no conflicts. -/
theorem risk_fail_forces_no_trade_witness :
    StateCalculator.calculate exGatesRiskFail [] = PermissionState.NO_TRADE :=
  risk_fail_forces_no_trade exGatesRiskFail [] rfl

/-- Counterexample to claim C2: with comfort-range data absent, the code
computes stressRangeStatus = OUTSIDE (the not-in-stress value), not INSIDE
as claimed, and with LOW crowding the Risk gate status is then PASS, not
FAIL. -/
theorem stress_range_absent_cex :
    RiskGate.assessStressRange 100 none = StressRangeStatus.OUTSIDE ∧
    RiskGate.determineStatus CrowdingLevel.LOW
      (RiskGate.assessStressRange 100 none) = GateStatus.PASS ∧
    StressRangeStatus.OUTSIDE ≠ StressRangeStatus.INSIDE := by
  refine ⟨rfl, rfl, by decide⟩

/-- Claim C2 as amended: when comfort-range data is absent the computed
stressRangeStatus is OUTSIDE (the not-in-stress default), so the missing
data alone never forces a Risk FAIL: the gate then fails exactly on EXTREME
crowding, is WEAK_PASS on ELEVATED crowding, and passes on NORMAL or LOW
crowding. -/
theorem stress_range_absent_default (currentPrice : ℚ) :
    RiskGate.assessStressRange currentPrice none = StressRangeStatus.OUTSIDE ∧
    RiskGate.determineStatus CrowdingLevel.EXTREME
      (RiskGate.assessStressRange currentPrice none) = GateStatus.FAIL ∧
    RiskGate.determineStatus CrowdingLevel.ELEVATED
      (RiskGate.assessStressRange currentPrice none) = GateStatus.WEAK_PASS ∧
    RiskGate.determineStatus CrowdingLevel.NORMAL
      (RiskGate.assessStressRange currentPrice none) = GateStatus.PASS ∧
    RiskGate.determineStatus CrowdingLevel.LOW
      (RiskGate.assessStressRange currentPrice none) = GateStatus.PASS :=
  ⟨rfl, rfl, rfl, rfl, rfl⟩

/-- Claim C5: `StateCalculator.calculate` is total — for every combination
of the four gate statuses and every conflict list it returns one of the
five defined permission states. -/
theorem calculate_total (gateResult : GateEvaluationResult)
    (conflicts : List LayerConflict) :
    StateCalculator.calculate gateResult conflicts = PermissionState.TRADE_ALLOWED ∨
    StateCalculator.calculate gateResult conflicts = PermissionState.TRADE_ALLOWED_REDUCED_RISK ∨
    StateCalculator.calculate gateResult conflicts = PermissionState.SCALP_ONLY ∨
    StateCalculator.calculate gateResult conflicts = PermissionState.WAIT ∨
    StateCalculator.calculate gateResult conflicts = PermissionState.NO_TRADE := by
  simp only [StateCalculator.calculate]
  split_ifs <;> simp

/-- Claim C7: in every assessment the validUntil field equals assessedAt plus the
fixed `TIMING.PERMISSION_VALIDITY_MS` window (300000 ms), for every asset,
gate evaluation, and evaluation instant. -/
theorem valid_until_fixed_window (asset : String)
    (gateResult : GateEvaluationResult) (assessedAt : Nat) :
    (PermissionStateEngine.assess asset gateResult assessedAt).validUntil =
      (PermissionStateEngine.assess asset gateResult assessedAt).assessedAt +
        TIMING.PERMISSION_VALIDITY_MS ∧
    TIMING.PERMISSION_VALIDITY_MS = 300000 :=
  ⟨rfl, rfl⟩

/-- Claim C8: conflict detection does not mutate the gate verdicts.  In the
state-passing embedding `detectS`, which threads the verdict record through
every statement of the detector body, the final verdict state equals the
input (in particular the status of every gate is unchanged), and the returned
conflicts are exactly the freshly built list of `detect`. -/
theorem detect_does_not_mutate (gateResult : GateEvaluationResult) (now : Nat) :
    (ConflictDetector.detectS gateResult now).1 = gateResult ∧
    (ConflictDetector.detectS gateResult now).1.regime.status = gateResult.regime.status ∧
    (ConflictDetector.detectS gateResult now).1.flow.status = gateResult.flow.status ∧
    (ConflictDetector.detectS gateResult now).1.risk.status = gateResult.risk.status ∧
    (ConflictDetector.detectS gateResult now).1.context.status = gateResult.context.status ∧
    (ConflictDetector.detectS gateResult now).2 = ConflictDetector.detect gateResult now :=
  ⟨rfl, rfl, rfl, rfl, rfl, by simp [ConflictDetector.detectS, ConflictDetector.detect]⟩

/-- Claim C3: `StateCalculator.calculate` equals the five-step ordered
cascade written directly from the wording of spec §4.6, for every gate
evaluation and conflict list. -/
theorem calculate_eq_spec_cascade (gateResult : GateEvaluationResult)
    (conflicts : List LayerConflict) :
    StateCalculator.calculate gateResult conflicts =
      StateCalculator.calculateSpecCascade gateResult conflicts := by
  obtain ⟨⟨rs, _, _, _⟩, ⟨fs, _, _, _, _, _⟩, ⟨ks, _, _, _, _, _⟩, ⟨cs, _, _, _, _, _⟩⟩ :=
    gateResult
  cases hc : conflicts.any (fun c => decide (c.severity = Severity.HIGH)) <;>
    cases rs <;> cases fs <;> cases ks <;> cases cs <;>
      simp [StateCalculator.calculate, StateCalculator.calculateSpecCascade, hc]

/-- Claim C9: when the zone of the Context gate is computed from the same Flow
verdict that the conflict detector later reads (as the pipeline wires it),
an accumulation zone implies ACCUMULATION flow and a distribution zone
implies DISTRIBUTION flow; hence the zone/flow alignment is never
MISALIGNED (the MISALIGNED FAIL branch of the Context gate is unreachable) and
`checkZoneFlowConflict` never fires. -/
theorem zone_flow_invariant (price : ℚ) (referenceLevel : ReferenceLevel)
    (fv : FlowVerdict) (cv : ContextVerdict) (now : Nat)
    (hzone : cv.currentZone = ContextGate.determineCurrentZone price referenceLevel fv)
    (halign : cv.zoneFlowAlignment =
      ContextGate.assessZoneFlowAlignment cv.currentZone fv.flowDirection) :
    (cv.currentZone = CurrentZone.ACCUMULATION_ZONE →
      fv.flowDirection = FlowDirection.ACCUMULATION) ∧
    (cv.currentZone = CurrentZone.DISTRIBUTION_ZONE →
      fv.flowDirection = FlowDirection.DISTRIBUTION) ∧
    cv.zoneFlowAlignment ≠ ZoneFlowAlignment.MISALIGNED ∧
    ConflictDetector.checkZoneFlowConflict cv fv now = none := by
  have hAcc : cv.currentZone = CurrentZone.ACCUMULATION_ZONE →
      fv.flowDirection = FlowDirection.ACCUMULATION := by
    rw [hzone]
    unfold ContextGate.determineCurrentZone
    split_ifs with h1 h2 <;> intro hz
    · exact h1.2
    · cases hz
    · cases hz
  have hDist : cv.currentZone = CurrentZone.DISTRIBUTION_ZONE →
      fv.flowDirection = FlowDirection.DISTRIBUTION := by
    rw [hzone]
    unfold ContextGate.determineCurrentZone
    split_ifs with h1 h2 <;> intro hz
    · cases hz
    · exact h2.2
    · cases hz
  refine ⟨hAcc, hDist, ?_, ?_⟩
  · rw [halign]
    unfold ContextGate.assessZoneFlowAlignment
    split_ifs with h1 h2 h3 h4 <;> simp
    · have := hAcc h3.1
      rw [this] at h3
      cases h3.2
    · have := hDist h4.1
      rw [this] at h4
      cases h4.2
  · unfold ConflictDetector.checkZoneFlowConflict
    split_ifs with h1 h2
    · have := hAcc h1.1
      rw [this] at h1
      cases h1.2
    · have := hDist h2.1
      rw [this] at h2
      cases h2.2
    · rfl

/-- Witness for C9: the invariant applied at price 90 under
`exReferenceLevel` with an ACCUMULATION flow verdict and the Context
verdict the pipeline computes from it. -/
theorem zone_flow_invariant_witness :
    (exContextAccum.currentZone = CurrentZone.ACCUMULATION_ZONE →
      exFlowAccum.flowDirection = FlowDirection.ACCUMULATION) ∧
    (exContextAccum.currentZone = CurrentZone.DISTRIBUTION_ZONE →
      exFlowAccum.flowDirection = FlowDirection.DISTRIBUTION) ∧
    exContextAccum.zoneFlowAlignment ≠ ZoneFlowAlignment.MISALIGNED ∧
    ConflictDetector.checkZoneFlowConflict exContextAccum exFlowAccum 0 = none :=
  zone_flow_invariant 90 exReferenceLevel exFlowAccum exContextAccum 0 rfl rfl

/-- Counterexample to claim C4: with exactly one LOW-confidence gate, all
freshness CURRENT, and a HIGH-severity conflict present, the code returns
MODERATE — the single-LOW check precedes the HIGH-conflict check — whereas
the claim requires HIGH. -/
theorem uncertainty_one_low_high_conflict_cex :
    ((PermissionStateEngine.confidenceList exGatesOneLow).filter
      (fun c => decide (c = ConfidenceLevel.LOW))).length = 1 ∧
    (PermissionStateEngine.freshnessList exGatesOneLow).any
      (fun f => decide (f = DataFreshness.STALE)) = false ∧
    ((PermissionStateEngine.freshnessList exGatesOneLow).filter
      (fun f => decide (f = DataFreshness.UNKNOWN))).length = 0 ∧
    exHighConflict.severity = Severity.HIGH ∧
    PermissionStateEngine.assessUncertainty exGatesOneLow [exHighConflict] =
      UncertaintyLevel.MODERATE ∧
    UncertaintyLevel.MODERATE ≠ UncertaintyLevel.HIGH := by
  refine ⟨by decide, by decide, by decide, rfl, by decide, by decide⟩

/-- Claim C4 as amended: the uncertainty assessor equals the cascade in
which, after the CRITICAL freshness checks, HIGH fires on two or more
LOW-confidence gates, or on a HIGH-severity conflict only when no gate has
LOW confidence; MODERATE fires on exactly one LOW-confidence gate, on any
conflict at all, or on two or more MEDIUM-confidence gates; else LOW.  In
particular one LOW-confidence gate together with a HIGH-severity conflict
yields MODERATE, not HIGH. -/
theorem assess_uncertainty_eq_amended (gateResult : GateEvaluationResult)
    (conflicts : List LayerConflict) :
    PermissionStateEngine.assessUncertainty gateResult conflicts =
      PermissionStateEngine.assessUncertaintyAmendedRef gateResult conflicts := by
  unfold PermissionStateEngine.assessUncertainty
    PermissionStateEngine.assessUncertaintyAmendedRef
  set L := ((PermissionStateEngine.confidenceList gateResult).filter
    fun c => decide (c = ConfidenceLevel.LOW)).length with hLdef
  set M := ((PermissionStateEngine.confidenceList gateResult).filter
    fun c => decide (c = ConfidenceLevel.MEDIUM)).length with hMdef
  by_cases hS : ((PermissionStateEngine.freshnessList gateResult).any
      fun f => decide (f = DataFreshness.STALE)) = true
  · simp only [hS, if_true, true_or, if_pos]
  by_cases hU : 2 ≤ ((PermissionStateEngine.freshnessList gateResult).filter
      fun f => decide (f = DataFreshness.UNKNOWN)).length
  · simp only [hS, Bool.false_eq_true, if_false, hU, if_true, or_true, if_pos]
  by_cases hL2 : 2 ≤ L
  · simp only [hS, Bool.false_eq_true, if_false, hU, if_true, if_pos, or_false,
      false_or, hL2, true_or]
  by_cases hL1 : L = 1
  · have hne0 : ¬(L = 0) := by omega
    simp only [hS, Bool.false_eq_true, if_false, hU, or_self, hL2, hL1, if_true,
      hne0, false_and, or_false, true_or, if_pos]
    simp
  have hL0 : L = 0 := by omega
  by_cases hH : (conflicts.any fun c => decide (c.severity = Severity.HIGH)) = true
  · have hne : conflicts ≠ [] := by
      rcases List.any_eq_true.mp hH with ⟨x, hx, _⟩
      exact List.ne_nil_of_mem hx
    simp only [hS, Bool.false_eq_true, if_false, hU, or_self, hL2, hL1, if_true,
      hL0, hH, and_true, or_true, if_pos, true_and]
    simp [hL0, hL2]
  by_cases hM3 : (conflicts.any fun c => decide (c.severity = Severity.MEDIUM)) = true
  · have hne : conflicts ≠ [] := by
      rcases List.any_eq_true.mp hM3 with ⟨x, hx, _⟩
      exact List.ne_nil_of_mem hx
    simp [hS, hU, hL2, hL1, hL0, hH, hM3, hne]
  by_cases hlen : 0 < conflicts.length
  · have hne : conflicts ≠ [] := by
      cases conflicts
      · simp at hlen
      · simp
    simp [hS, hU, hL2, hL1, hL0, hH, hM3, hlen, hne]
  · have hnil : conflicts = [] := by
      cases conflicts
      · rfl
      · simp at hlen
    by_cases hM2 : 2 ≤ M
    · simp [hS, hU, hL2, hL1, hL0, hH, hM3, hlen, hnil, hM2]
    · simp [hS, hU, hL2, hL1, hL0, hH, hM3, hlen, hnil, hM2]

/-- Counterexample to claim C6: at a 24h delta of 100 and a 7d delta of -5
the deltas are opposite-signed and the smaller magnitude (5) is below 10%
of the larger (100), so the symmetric tie-break of the claim demands the sign of the
larger magnitude, ACCUMULATION — but the tie-break in the code only fires when
the 24h magnitude is the small one, and it returns UNCLEAR here. -/
theorem flow_direction_tiebreak_cex :
    (0 : ℚ) < 100 ∧ (-5 : ℚ) < 0 ∧ |(-5 : ℚ)| < |(100 : ℚ)| * (1 / 10) ∧
    FlowGate.flowDirectionClaimRef 100 (-5) = FlowDirection.ACCUMULATION ∧
    FlowGate.determineFlowDirection
      (some { cvdWhale24h := 100, cvdWhale7d := -5 }) = FlowDirection.UNCLEAR ∧
    FlowDirection.UNCLEAR ≠ FlowDirection.ACCUMULATION := by
  refine ⟨by norm_num, by norm_num, by norm_num, ?_, ?_, by decide⟩
  · unfold FlowGate.flowDirectionClaimRef
    norm_num
  · unfold FlowGate.determineFlowDirection
    norm_num

/-- Claim C6 as amended: the flow direction is ACCUMULATION when both
deltas are positive and DISTRIBUTION when both are negative; otherwise the
10% tie-break is asymmetric — it fires exactly when the 24h magnitude is
under 10% of the 7d magnitude and then follows the 7d sign; failing that,
strictly opposite-signed deltas give UNCLEAR, and the remaining mixed cases
(at least one delta zero) give NEUTRAL. -/
theorem determine_flow_direction_eq_amended (h24 d7 : ℚ) :
    FlowGate.determineFlowDirection
        (some { cvdWhale24h := h24, cvdWhale7d := d7 }) =
      FlowGate.flowDirectionAmendedRef h24 d7 := by
  have habs : ∀ x y : ℚ, (|x| < |y| * (1 / 10)) ↔ (10 * |x| < |y|) := by
    intro x y
    constructor <;> intro h <;> linarith
  unfold FlowGate.determineFlowDirection FlowGate.flowDirectionAmendedRef
  simp only [habs]
  split_ifs <;>
    first
      | rfl
      | (exfalso
         rcases lt_trichotomy h24 0 with ha | ha | ha <;>
           rcases lt_trichotomy d7 0 with hb | hb | hb <;>
             subst_vars <;> simp_all [abs_of_pos, abs_of_neg] <;>
               first
                 | linarith
                 | (rename_i himp
                    have hd7 := himp (by intro hh; simp [hh] at ha)
                    linarith))

/-- Every conflict emitted by the Regime/Flow check carries the
REGIME_FLOW_DIVERGENCE type tag. -/
theorem regime_flow_check_type (regime : RegimeVerdict) (flow : FlowVerdict)
    (now : Nat) :
    ∀ c ∈ (ConflictDetector.checkRegimeFlowConflict regime flow now).toList,
      c.conflictType = "REGIME_FLOW_DIVERGENCE" := by
  unfold ConflictDetector.checkRegimeFlowConflict
  split_ifs <;> simp

/-- Every conflict emitted by the Flow/Risk check carries the
FLOW_RISK_DIVERGENCE type tag. -/
theorem flow_risk_check_type (flow : FlowVerdict) (risk : RiskVerdict)
    (now : Nat) :
    ∀ c ∈ (ConflictDetector.checkFlowRiskConflict flow risk now).toList,
      c.conflictType = "FLOW_RISK_DIVERGENCE" := by
  unfold ConflictDetector.checkFlowRiskConflict
  split_ifs <;> simp

/-- Every conflict emitted by the Risk/Context check carries the
RISK_CONTEXT_DIVERGENCE type tag. -/
theorem risk_context_check_type (risk : RiskVerdict) (context : ContextVerdict)
    (now : Nat) :
    ∀ c ∈ (ConflictDetector.checkRiskContextConflict risk context now).toList,
      c.conflictType = "RISK_CONTEXT_DIVERGENCE" := by
  unfold ConflictDetector.checkRiskContextConflict
  split_ifs <;> simp

/-- Every conflict emitted by the timeframe check carries the
FLOW_TIMEFRAME_DIVERGENCE type tag. -/
theorem flow_timeframe_check_type (flow : FlowVerdict) (now : Nat) :
    ∀ c ∈ (ConflictDetector.checkFlowTimeframeConflict flow now).toList,
      c.conflictType = "FLOW_TIMEFRAME_DIVERGENCE" := by
  unfold ConflictDetector.checkFlowTimeframeConflict
  split_ifs <;> simp

/-- Every conflict emitted by the zone/flow check carries the
ZONE_FLOW_DIVERGENCE type tag. -/
theorem zone_flow_check_type (context : ContextVerdict) (flow : FlowVerdict)
    (now : Nat) :
    ∀ c ∈ (ConflictDetector.checkZoneFlowConflict context flow now).toList,
      c.conflictType = "ZONE_FLOW_DIVERGENCE" := by
  unfold ConflictDetector.checkZoneFlowConflict
  split_ifs <;> simp

/-- An optional conflict contributes at most one element, filtered or not. -/
theorem option_toList_filter_length_le (o : Option LayerConflict)
    (p : LayerConflict → Bool) : (o.toList.filter p).length ≤ 1 := by
  cases o with
  | none => simp
  | some c => cases h : p c <;> simp [List.filter, h]

/-- An optional conflict contributes at most one element. -/
theorem option_toList_length_le (o : Option LayerConflict) :
    o.toList.length ≤ 1 := by
  cases o <;> simp

/-- A list whose members all carry type tag `t` has no member of a
different tag `t'`. -/
theorem filter_eq_nil_of_type (l : List LayerConflict) (t t' : String)
    (hl : ∀ c ∈ l, c.conflictType = t) (hne : t ≠ t') :
    l.filter (fun c => decide (c.conflictType = t')) = [] := by
  induction l with
  | nil => rfl
  | cons a as ih =>
    have ha : a.conflictType = t := hl a (List.mem_cons_self a as)
    have hna : ¬(a.conflictType = t') := by rw [ha]; exact hne
    rw [List.filter_cons_of_neg (by simpa using hna)]
    exact ih fun c hc => hl c (List.mem_cons_of_mem a hc)

/-- Claim C10: for every gate evaluation, `ConflictDetector.detect` emits
at most one conflict of each of the five conflict types, and hence at most
five conflicts in total. -/
theorem detect_conflict_bound (gateResult : GateEvaluationResult) (now : Nat) :
    (ConflictDetector.detect gateResult now).length ≤ 5 ∧
    ((ConflictDetector.detect gateResult now).filter
      fun c => decide (c.conflictType = "REGIME_FLOW_DIVERGENCE")).length ≤ 1 ∧
    ((ConflictDetector.detect gateResult now).filter
      fun c => decide (c.conflictType = "FLOW_RISK_DIVERGENCE")).length ≤ 1 ∧
    ((ConflictDetector.detect gateResult now).filter
      fun c => decide (c.conflictType = "RISK_CONTEXT_DIVERGENCE")).length ≤ 1 ∧
    ((ConflictDetector.detect gateResult now).filter
      fun c => decide (c.conflictType = "FLOW_TIMEFRAME_DIVERGENCE")).length ≤ 1 ∧
    ((ConflictDetector.detect gateResult now).filter
      fun c => decide (c.conflictType = "ZONE_FLOW_DIVERGENCE")).length ≤ 1 := by
  have h1 := regime_flow_check_type gateResult.regime gateResult.flow now
  have h2 := flow_risk_check_type gateResult.flow gateResult.risk now
  have h3 := risk_context_check_type gateResult.risk gateResult.context now
  have h4 := flow_timeframe_check_type gateResult.flow now
  have h5 := zone_flow_check_type gateResult.context gateResult.flow now
  have l1 := option_toList_length_le
    (ConflictDetector.checkRegimeFlowConflict gateResult.regime gateResult.flow now)
  have l2 := option_toList_length_le
    (ConflictDetector.checkFlowRiskConflict gateResult.flow gateResult.risk now)
  have l3 := option_toList_length_le
    (ConflictDetector.checkRiskContextConflict gateResult.risk gateResult.context now)
  have l4 := option_toList_length_le
    (ConflictDetector.checkFlowTimeframeConflict gateResult.flow now)
  have l5 := option_toList_length_le
    (ConflictDetector.checkZoneFlowConflict gateResult.context gateResult.flow now)
  have nil12 := filter_eq_nil_of_type _ _ "REGIME_FLOW_DIVERGENCE" h2 (by decide)
  have nil13 := filter_eq_nil_of_type _ _ "REGIME_FLOW_DIVERGENCE" h3 (by decide)
  have nil14 := filter_eq_nil_of_type _ _ "REGIME_FLOW_DIVERGENCE" h4 (by decide)
  have nil15 := filter_eq_nil_of_type _ _ "REGIME_FLOW_DIVERGENCE" h5 (by decide)
  have nil21 := filter_eq_nil_of_type _ _ "FLOW_RISK_DIVERGENCE" h1 (by decide)
  have nil23 := filter_eq_nil_of_type _ _ "FLOW_RISK_DIVERGENCE" h3 (by decide)
  have nil24 := filter_eq_nil_of_type _ _ "FLOW_RISK_DIVERGENCE" h4 (by decide)
  have nil25 := filter_eq_nil_of_type _ _ "FLOW_RISK_DIVERGENCE" h5 (by decide)
  have nil31 := filter_eq_nil_of_type _ _ "RISK_CONTEXT_DIVERGENCE" h1 (by decide)
  have nil32 := filter_eq_nil_of_type _ _ "RISK_CONTEXT_DIVERGENCE" h2 (by decide)
  have nil34 := filter_eq_nil_of_type _ _ "RISK_CONTEXT_DIVERGENCE" h4 (by decide)
  have nil35 := filter_eq_nil_of_type _ _ "RISK_CONTEXT_DIVERGENCE" h5 (by decide)
  have nil41 := filter_eq_nil_of_type _ _ "FLOW_TIMEFRAME_DIVERGENCE" h1 (by decide)
  have nil42 := filter_eq_nil_of_type _ _ "FLOW_TIMEFRAME_DIVERGENCE" h2 (by decide)
  have nil43 := filter_eq_nil_of_type _ _ "FLOW_TIMEFRAME_DIVERGENCE" h3 (by decide)
  have nil45 := filter_eq_nil_of_type _ _ "FLOW_TIMEFRAME_DIVERGENCE" h5 (by decide)
  have nil51 := filter_eq_nil_of_type _ _ "ZONE_FLOW_DIVERGENCE" h1 (by decide)
  have nil52 := filter_eq_nil_of_type _ _ "ZONE_FLOW_DIVERGENCE" h2 (by decide)
  have nil53 := filter_eq_nil_of_type _ _ "ZONE_FLOW_DIVERGENCE" h3 (by decide)
  have nil54 := filter_eq_nil_of_type _ _ "ZONE_FLOW_DIVERGENCE" h4 (by decide)
  have f1 := option_toList_filter_length_le
    (ConflictDetector.checkRegimeFlowConflict gateResult.regime gateResult.flow now)
    (fun c => decide (c.conflictType = "REGIME_FLOW_DIVERGENCE"))
  have f2 := option_toList_filter_length_le
    (ConflictDetector.checkFlowRiskConflict gateResult.flow gateResult.risk now)
    (fun c => decide (c.conflictType = "FLOW_RISK_DIVERGENCE"))
  have f3 := option_toList_filter_length_le
    (ConflictDetector.checkRiskContextConflict gateResult.risk gateResult.context now)
    (fun c => decide (c.conflictType = "RISK_CONTEXT_DIVERGENCE"))
  have f4 := option_toList_filter_length_le
    (ConflictDetector.checkFlowTimeframeConflict gateResult.flow now)
    (fun c => decide (c.conflictType = "FLOW_TIMEFRAME_DIVERGENCE"))
  have f5 := option_toList_filter_length_le
    (ConflictDetector.checkZoneFlowConflict gateResult.context gateResult.flow now)
    (fun c => decide (c.conflictType = "ZONE_FLOW_DIVERGENCE"))
  unfold ConflictDetector.detect
  refine ⟨?_, ?_, ?_, ?_, ?_, ?_⟩
  · simp only [List.length_append]
    omega
  · simp only [List.filter_append, List.length_append, nil12, nil13, nil14,
      nil15, List.length_nil]
    omega
  · simp only [List.filter_append, List.length_append, nil21, nil23, nil24,
      nil25, List.length_nil]
    omega
  · simp only [List.filter_append, List.length_append, nil31, nil32, nil34,
      nil35, List.length_nil]
    omega
  · simp only [List.filter_append, List.length_append, nil41, nil42, nil43,
      nil45, List.length_nil]
    omega
  · simp only [List.filter_append, List.length_append, nil51, nil52, nil53,
      nil54, List.length_nil]
    omega
